import Mathlib

/-!
Verification development for the Scholarship-bot repository
(src/main.py and src/server.py).

The Python code is shallowly embedded: dynamic (json-derived) values are
modelled by `PyVal`, the `UserProfile` dataclass by a structure of `PyVal`
fields (since `setattr` can store a value of any runtime type in any
attribute), the text-generation service and the Tavily search service by an
explicit environment of oracles, and stateful methods of `ScholarshipBot`
by state-passing functions that also report which downstream agents were
invoked during the turn.  Operations that can raise in Python are modelled
with `Option`/`Except`.
-/

namespace Scholarship

/-! ## Python string primitives

`str.strip()`, `str.lower()` and the substring test `in` are modelled at
the character-list level (structural recursion, so that concrete instances
evaluate). -/

/-- Python `s.strip()`: remove leading and trailing whitespace. -/
def pyStripStr (s : String) : String :=
  String.mk (((s.data.dropWhile Char.isWhitespace).reverse.dropWhile Char.isWhitespace).reverse)

/-- Python `s.lower()`. -/
def pyLower (s : String) : String :=
  String.mk (s.data.map Char.toLower)

def isPrefixChars : List Char → List Char → Bool
  | [], _ => true
  | _ :: _, [] => false
  | a :: as, b :: bs => a = b && isPrefixChars as bs

/-- `needle` occurs as a contiguous substring of the haystack. -/
def containsSub (needle : List Char) : List Char → Bool
  | [] => needle.isEmpty
  | c :: rest => isPrefixChars needle (c :: rest) || containsSub needle rest

/-- Dynamic values, as produced by `json.loads` on the extractor output and
as stored in `UserProfile` attributes.  The source only ever constructs
strings, numbers and lists of strings for profile fields; numeric values
(Python floats) are modelled by `Int`. -/
inductive PyVal where
  | str (s : String)
  | num (n : Int)
  | list (xs : List String)
  deriving DecidableEq

/-- Python truthiness of a `PyVal` (`if value:`). -/
def PyVal.truthy : PyVal → Bool
  | .str s => s ≠ ""
  | .num n => n ≠ 0
  | .list xs => !xs.isEmpty

/-- `isinstance(value, list)`. -/
def PyVal.isList : PyVal → Bool
  | .list _ => true
  | _ => false

/-- `str(value)`, as interpolated by Python f-strings.  A list of strings is
rendered Python-repr style with single quotes. -/
def PyVal.pyStr : PyVal → String
  | .str s => s
  | .num n => toString n
  | .list xs => "[" ++ String.intercalate ", " (xs.map (fun x => "\x27" ++ x ++ "\x27")) ++ "]"

/-- `value.strip()`: defined for strings, raises `AttributeError` otherwise
(modelled as `Option.none`). -/
def PyVal.pyStrip : PyVal → Option String
  | .str s => some (pyStripStr s)
  | _ => Option.none

/-- Python str.join with the literal comma-space separator: joining a list
of strings concatenates them; joining a string joins its characters (Python
iterates a string by character); joining a number raises `TypeError`
(`Option.none`). -/
def PyVal.pyJoinComma : PyVal → Option String
  | .list xs => some (String.intercalate ", " xs)
  | .str s => some (String.intercalate ", " (s.toList.map (fun c => String.mk [c])))
  | .num _ => Option.none

/-- The dataclass `UserProfile` from src/main.py.  Every attribute holds a
dynamic value, because `_extract_profile_info` assigns via `setattr` with no
type check; the defaults are those of the dataclass
(`""` for the string fields, `0.0` for `gpa`, `[]` for the two list
fields installed by `__post_init__`). -/
structure UserProfile where
  field_of_study : PyVal := .str ""
  education_level : PyVal := .str ""
  gpa : PyVal := .num 0
  location : PyVal := .str ""
  citizenship : PyVal := .str ""
  financial_need : PyVal := .str ""
  extracurriculars : PyVal := .list []
  research_interests : PyVal := .list []
  career_goals : PyVal := .str ""
  deriving DecidableEq

/-- The nine data attributes of `UserProfile`. -/
inductive Attr where
  | field_of_study | education_level | gpa | location | citizenship
  | financial_need | extracurriculars | research_interests | career_goals
  deriving DecidableEq

/-- Resolution of an attribute name, as used by `hasattr`/`getattr`/`setattr`
in `_extract_profile_info` (modelled over the data attributes of the
dataclass). -/
def attrOf (k : String) : Option Attr :=
  if k = "field_of_study" then some .field_of_study
  else if k = "education_level" then some .education_level
  else if k = "gpa" then some .gpa
  else if k = "location" then some .location
  else if k = "citizenship" then some .citizenship
  else if k = "financial_need" then some .financial_need
  else if k = "extracurriculars" then some .extracurriculars
  else if k = "research_interests" then some .research_interests
  else if k = "career_goals" then some .career_goals
  else Option.none

def UserProfile.readAttr (p : UserProfile) : Attr → PyVal
  | .field_of_study => p.field_of_study
  | .education_level => p.education_level
  | .gpa => p.gpa
  | .location => p.location
  | .citizenship => p.citizenship
  | .financial_need => p.financial_need
  | .extracurriculars => p.extracurriculars
  | .research_interests => p.research_interests
  | .career_goals => p.career_goals

def UserProfile.writeAttr (p : UserProfile) (a : Attr) (v : PyVal) : UserProfile :=
  match a with
  | .field_of_study => { p with field_of_study := v }
  | .education_level => { p with education_level := v }
  | .gpa => { p with gpa := v }
  | .location => { p with location := v }
  | .citizenship => { p with citizenship := v }
  | .financial_need => { p with financial_need := v }
  | .extracurriculars => { p with extracurriculars := v }
  | .research_interests => { p with research_interests := v }
  | .career_goals => { p with career_goals := v }

/-- `getattr(profile, k)` guarded by `hasattr`. -/
def UserProfile.getAttr (p : UserProfile) (k : String) : Option PyVal :=
  (attrOf k).map p.readAttr

/-- `setattr(profile, k, v)` (no-op on an unknown name, which the merge loop
never reaches because of its `hasattr` guard). -/
def UserProfile.setAttr (p : UserProfile) (k : String) (v : PyVal) : UserProfile :=
  match attrOf k with
  | some a => p.writeAttr a v
  | Option.none => p

/-- One iteration of the merge loop in `_extract_profile_info`:

    if hasattr(self.user_profile, key) and value:
        if isinstance(value, list):
            current_list = getattr(self.user_profile, key) or []
            updated_list = list(set(current_list + value))
            setattr(self.user_profile, key, updated_list)
        else:
            setattr(self.user_profile, key, value)

`list(set(...))` collapses duplicates in an unspecified order; it is
modelled by `List.dedup` of the concatenation, and properties are stated up
to membership.  `Option.none` models the `TypeError` raised by
`current_list + value` when the current attribute value is truthy and not a
list. -/
def applyEntry (p : UserProfile) (k : String) (v : PyVal) : Option UserProfile :=
  match p.getAttr k with
  | Option.none => some p
  | some cur =>
    if v.truthy then
      match v with
      | .list xs =>
        match (if cur.truthy then cur else PyVal.list []) with
        | .list cs => some (p.setAttr k (.list ((cs ++ xs).dedup)))
        | _ => Option.none
      | _ => some (p.setAttr k v)
    else some p

/-- The whole merge loop over a parsed delta (`extracted_data.items()` in
insertion order).  A `TypeError` raised mid-loop aborts the loop — the
entries already applied keep their effect, the remaining ones are skipped —
and is caught by the enclosing `except Exception` handler of
`_extract_profile_info`. -/
def mergeDelta : UserProfile → List (String × PyVal) → UserProfile
  | p, [] => p
  | p, (k, v) :: rest =>
    match applyEntry p k v with
    | some p' => mergeDelta p' rest
    | Option.none => p

/-- A whole session of successive merges. -/
def applyDeltas (p : UserProfile) (ds : List (List (String × PyVal))) : UserProfile :=
  ds.foldl mergeDelta p

/-- `UserProfile.is_complete`:

    required_fields = [self.field_of_study, self.education_level, self.location, self.citizenship]
    return all(field.strip() for field in required_fields)

`all` evaluates the generator lazily, so `.strip()` (which raises on a
non-string, modelled by `Option.none`) is only reached for a field when all
earlier required fields stripped to non-empty strings. -/
def UserProfile.is_complete (p : UserProfile) : Option Bool :=
  match p.field_of_study.pyStrip with
  | Option.none => Option.none
  | some a =>
    if a = "" then some false else
    match p.education_level.pyStrip with
    | Option.none => Option.none
    | some b =>
      if b = "" then some false else
      match p.location.pyStrip with
      | Option.none => Option.none
      | some c =>
        if c = "" then some false else
        match p.citizenship.pyStrip with
        | Option.none => Option.none
        | some d => some (d ≠ "")

/-- `UserProfile.to_search_context`, reproducing the f-string of the source.
`gpa > 0` raises on a non-numeric `gpa`, and the comma-space join raises on
a numeric `research_interests`; both are modelled by `Option.none`. -/
def UserProfile.to_search_context (p : UserProfile) : Option String :=
  match p.gpa with
  | .num g =>
    match (if p.research_interests.truthy
           then p.research_interests.pyJoinComma
           else some "Not specified") with
    | Option.none => Option.none
    | some ri =>
      some ("\n        Field of Study: " ++ p.field_of_study.pyStr
        ++ "\n        Education Level: " ++ p.education_level.pyStr
        ++ "\n        Location: " ++ p.location.pyStr
        ++ "\n        Citizenship: " ++ p.citizenship.pyStr
        ++ "\n        GPA: " ++ (if g > 0 then toString g else "Not specified")
        ++ "\n        Financial Need: " ++ p.financial_need.pyStr
        ++ "\n        Research Interests: " ++ ri
        ++ "\n        Career Goals: " ++ p.career_goals.pyStr
        ++ "\n        ")
  | _ => Option.none

/-! ## Search service and result bundle -/

/-- One Tavily result item (title, url, snippet). -/
structure SearchResult where
  title : String
  url : String
  content : String
  deriving DecidableEq

/-- One Tavily search response (`results` plus the optional synthesized
`answer` that the code requests with `include_answer=True`). -/
structure SearchResponse where
  results : List SearchResult := []
  answer : Option String := Option.none
  deriving DecidableEq

/-- The parameters of one `tavily_client.search(...)` call. -/
structure SearchRequest where
  query : String
  search_depth : String
  max_results : Nat
  include_answer : Bool
  include_raw_content : Bool
  deriving DecidableEq

/-- One entry of the dict built by `research_agent` on success; the list of
entries keeps the dict insertion order (`citizenship_scholarships`,
`location_scholarships`, `application_tips`, `user_profile`). -/
inductive BundleEntry where
  | results (category : String) (r : SearchResponse)
  | profileCtx (ctx : String)
  deriving DecidableEq

/-- What `research_agent` returns: the combined bundle dict, or the error
dict produced by its `except` handler, whose single key `"error"` holds
`str(e)`.  Callers test `"error" in search_results` to distinguish the two
(the success dict has no `"error"` key). -/
inductive ResearchOutcome where
  | ok (bundle : List BundleEntry)
  | error (msg : String)
  deriving DecidableEq

/-! ## Conversation state, session state, external services -/

/-- The `ConversationState` enumeration of src/main.py. -/
inductive ConversationState where
  | PROFILING | SEARCHING | RESPONDING | COMPLETE
  deriving DecidableEq

/-- The mutable per-session state of one `ScholarshipBot` instance
(`self.state`, `self.user_profile`, `self.search_results` — initialized to
the empty list `[]` — and `self.pending_confirmation`). -/
structure BotState where
  state : ConversationState := .PROFILING
  user_profile : UserProfile := {}
  search_results : List BundleEntry := []
  pending_confirmation : Option String := Option.none
  deriving DecidableEq

/-- The external collaborators of one turn: the text-generation service
(`conversation.predict`, a function of the prompt; `Except.error` models a
raised exception carrying `str(e)`), the search service
(`tavily_client.search`), and `json.loads` on the extractor output
(restricted to the flat field maps relevant here; `Option.none` models
`json.JSONDecodeError`). -/
structure Env where
  gen : String → Except String String
  search : SearchRequest → Except String SearchResponse
  parse : String → Option (List (String × PyVal))

/-- Which downstream components a turn invoked, in order. -/
inductive AgentCall where
  | profiler | research | synthesizer | support | followup
  deriving DecidableEq

/-- The result of one turn: the returned reply (or an escaped exception),
the session state after the turn (Python mutates `self` in place, so
mutations made before a raise persist), and the invocation trace. -/
abbrev TurnResult := Except String String × BotState × List AgentCall

/-! ## Prompt construction (the f-strings of src/main.py)

The prompt texts are reproduced from the source; `Option.none` marks a
prompt whose construction raises because `to_search_context` raises on a
type-corrupted profile. -/

def profilerPrompt (p : UserProfile) : Option String :=
  (p.to_search_context).map (fun ctx =>
    "\n        You are a Profiler Agent for a scholarship guidance system. Your job is to gather complete user information.\n        \n        Current user profile:\n        "
    ++ ctx
    ++ "\n        \n        IMPORTANT RULES:\n        1. Ask ONE question at a time to gather missing information\n        2. Extract and update profile information from user responses\n        3. Required fields: field_of_study, education_level, location, citizenship\n        4. Optional but helpful: GPA, financial_need, research_interests, career_goals, extracurriculars\n        5. Be conversational and friendly\n        6. When asking about citizenship, clarify: \"What is your citizenship/nationality? This is crucial as scholarships have specific eligibility requirements based on citizenship.\"\n        7. Once you have the required information, say \"PROFILE_COMPLETE\" to proceed to search\n        \n        Focus on gathering the most important missing information first. Emphasize that citizenship information is critical for finding eligible scholarships.\n        ")

def extractionPrompt (user_input : String) : String :=
  "\n        You are a data extraction assistant. Extract profile information from user input and return ONLY valid JSON.\n\n        User input: \""
  ++ user_input
  ++ "\"\n        \n        Extract any information that matches these fields and return it as a JSON object:\n        - field_of_study (string): any academic field, major, or subject of study\n        - education_level (string): undergraduate, graduate, master\x27s, PhD, bachelor\x27s, etc.\n        - gpa (number): any grade point average mentioned\n        - location (string): any country, city, region, or place mentioned\n        - citizenship (string): any nationality, citizenship, or country of origin\n        - financial_need (string): any mention of funding needs, scholarships, or financial situation\n        - research_interests (array): any research topics, areas of interest, or academic focuses\n        - career_goals (string): any career aspirations, professional goals, or future plans\n        - extracurriculars (array): any activities, projects, clubs, or experiences outside academics\n\n        Guidelines:\n        - Extract information as mentioned by the user, don\x27t assume or add details\n        - Use the exact terms the user provides when possible\n        - For arrays, include individual items mentioned\n        - Return only fields that have actual information from the input\n        - If no relevant information is found, return \x7b\x7d\n\n        Return ONLY the JSON object with extracted information.\n        "

def responseSystemPrompt : String :=
  "\n        You are a Response Agent for a scholarship guidance system. Your job is to synthesize search results \n        and provide comprehensive, actionable scholarship guidance.\n        \n        CRITICAL REQUIREMENTS:\n        1. **CITIZENSHIP ELIGIBILITY FIRST**: Only recommend scholarships that explicitly allow the user\x27s citizenship/nationality\n        2. **SOURCE ATTRIBUTION**: Always include the source URL for each scholarship mentioned using format: [Source: URL]\n        3. **VERIFICATION NOTE**: Always remind users to verify eligibility on the official website\n        \n        RESPONSE STRUCTURE:\n        1. ** Scholarships for [User\x27s Citizenship] Citizens** (3-5 scholarships they can actually apply for)\n        2. **Application Guidance** (specific tips for their profile and citizenship)\n        3. ** Next Steps** (concrete action items with deadlines)\n        4. ** Additional Resources** (relevant links with sources)\n        \n        FORMATTING RULES:\n        - Each scholarship must include: Name, Amount (if available), Deadline, Eligibility, Application process\n        - Include source URL for each scholarship: [Source: website.com]\n        - Use clear headers and bullet points\n        - Emphasize citizenship-specific eligibility criteria\n        - Always ask for confirmation before proceeding with detailed application support\n        \n        AVOID:\n        - Recommending scholarships limited to US citizens unless user is from US\n        - Generic advice without considering user\x27s specific citizenship\n        - Scholarships without clear source attribution\n        "

/-- A deterministic rendering of one search response, standing for its part
of `json.dumps(search_data, indent=2)` (the exact JSON layout is not
load-bearing for any claim). -/
def dumpResponse (r : SearchResponse) : String :=
  String.intercalate "\n"
    (r.results.map (fun it => "  - " ++ it.title ++ " | " ++ it.url ++ " | " ++ it.content))
  ++ (match r.answer with
      | some a => "\n  answer: " ++ a
      | Option.none => "")

def dumpEntry : BundleEntry → String
  | .results cat r => cat ++ ":\n" ++ dumpResponse r
  | .profileCtx ctx => "user_profile:\n" ++ ctx

/-- Serialization of the search bundle, standing for
`json.dumps(search_data, indent=2)`. -/
def dumpBundle (b : List BundleEntry) : String :=
  String.intercalate "\n" (b.map dumpEntry)

/-- The full prompt of the `response_agent` generation call (system prompt
plus the human template instantiated with the serialized bundle). -/
def responsePrompt (b : List BundleEntry) : String :=
  responseSystemPrompt
  ++ "\nBased on this search data and user profile, provide comprehensive scholarship guidance:\n\n"
  ++ dumpBundle b

/-- The `_provide_application_support` prompt, templated from the profile. -/
def supportPrompt (p : UserProfile) : Option String :=
  (p.to_search_context).map (fun ctx =>
    "\n        Provide detailed application support for a student with this profile:\n        "
    ++ ctx
    ++ "\n        \n        Include:\n        1. **Personal Statement Template** - customized for their field\n        2. **Application Timeline** - step-by-step with deadlines\n        3. **Document Checklist** - everything they need to prepare\n        4. **Interview Preparation** - common questions and tips\n        5. **Follow-up Strategy** - how to track applications\n        \n        Be specific and actionable.\n        ")

/-- `str(bool(...))` as interpolated by the follow-up f-string. -/
def pyBoolStr (b : Bool) : String := if b then "True" else "False"

/-- The `_handle_followup` prompt. -/
def followupPrompt (user_input : String) (st : BotState) : Option String :=
  (st.user_profile.to_search_context).map (fun ctx =>
    "\n        User profile: " ++ ctx
    ++ "\n        Previous search results available: " ++ pyBoolStr (!st.search_results.isEmpty)
    ++ "\n        \n        User follow-up: \"" ++ user_input
    ++ "\"\n        \n        Provide helpful response based on context. If they want new search, set state back to searching.\n        If they want to modify their profile, help them update it.\n        ")

/-! ## The three search queries and the Search Orchestrator -/

def citizenshipQuery (p : UserProfile) : String :=
  "\n        scholarships grants funding for " ++ p.citizenship.pyStr ++ " citizens \n        "
  ++ p.field_of_study.pyStr ++ " " ++ p.education_level.pyStr
  ++ " \n        international students 2024 2025\n        "

def locationQuery (p : UserProfile) : String :=
  "\n        scholarships " ++ p.location.pyStr ++ " university \n        "
  ++ p.field_of_study.pyStr ++ " " ++ p.education_level.pyStr
  ++ "\n        " ++ p.citizenship.pyStr ++ " international students\n        "

def tipsQuery (p : UserProfile) : String :=
  "scholarship application tips " ++ p.field_of_study.pyStr
  ++ " personal statement " ++ p.citizenship.pyStr

/-- First search call: citizenship eligibility, `search_depth="advanced"`,
`max_results=6`, `include_answer=True`, `include_raw_content=False`. -/
def citizenshipRequest (p : UserProfile) : SearchRequest :=
  { query := citizenshipQuery p, search_depth := "advanced", max_results := 6,
    include_answer := true, include_raw_content := false }

/-- Second search call: location/institution, `search_depth="advanced"`,
`max_results=4`, `include_answer=True`, `include_raw_content=False`. -/
def locationRequest (p : UserProfile) : SearchRequest :=
  { query := locationQuery p, search_depth := "advanced", max_results := 4,
    include_answer := true, include_raw_content := false }

/-- Third search call: application tips, `search_depth="basic"`,
`max_results=3`, `include_answer=True`; `include_raw_content` is omitted in
the call and the Tavily client defaults it to `False`. -/
def tipsRequest (p : UserProfile) : SearchRequest :=
  { query := tipsQuery p, search_depth := "basic", max_results := 3,
    include_answer := true, include_raw_content := false }

/-- The three queries issued by `research_agent`, in issue order. -/
def researchQueries (p : UserProfile) : List SearchRequest :=
  [citizenshipRequest p, locationRequest p, tipsRequest p]

/-- The success dict of `research_agent`, in key insertion order. -/
def mkBundle (r1 r2 r3 : SearchResponse) (ctx : String) : List BundleEntry :=
  [.results "citizenship_scholarships" r1,
   .results "location_scholarships" r2,
   .results "application_tips" r3,
   .profileCtx ctx]

/-- `ScholarshipBot.research_agent` (its `query` parameter is unused by the
body).  The three service calls happen sequentially inside one `try`; the
first exception aborts the step and is converted by the `except` handler
into the error dict carrying `str(e)`.  Building `user_profile` context for the
bundle happens after the three calls and inside the same `try` (its
`TypeError` on a corrupted profile is likewise caught). -/
def research_agent (env : Env) (p : UserProfile) : ResearchOutcome :=
  match env.search (citizenshipRequest p) with
  | .error e => .error e
  | .ok r1 =>
    match env.search (locationRequest p) with
    | .error e => .error e
    | .ok r2 =>
      match env.search (tipsRequest p) with
      | .error e => .error e
      | .ok r3 =>
        match p.to_search_context with
        | Option.none => .error "TypeError"
        | some ctx => .ok (mkBundle r1 r2 r3 ctx)

/-- `research_agent` as a step on the session state: on success it also
performs the `self.search_results = all_results` assignment; on failure the
session state is left untouched. -/
def research_step (env : Env) (st : BotState) : ResearchOutcome × BotState :=
  match research_agent env st.user_profile with
  | .ok b => (.ok b, { st with search_results := b })
  | .error e => (.error e, st)

/-! ## Extraction, synthesis, support, follow-up steps -/

/-- `ScholarshipBot._extract_profile_info`: one generation call, then
`json.loads(result.strip())`.  A generation exception is caught by the
outer `except Exception`, a parse failure by the inner
`except json.JSONDecodeError`; in both cases the profile is left unchanged
and the turn continues. -/
def extract_profile_info (env : Env) (user_input : String) (p : UserProfile) : UserProfile :=
  match env.gen (extractionPrompt user_input) with
  | .error _ => p
  | .ok result =>
    match env.parse (pyStripStr result) with
    | Option.none => p
    | some delta => mergeDelta p delta

/-- `"PROFILE_COMPLETE" in response` (Python substring test). -/
def containsMarker (s : String) : Bool :=
  containsSub "PROFILE_COMPLETE".data s.data

/-- The completion test of `profiler_agent`:
`"PROFILE_COMPLETE" in response or self.user_profile.is_complete()`.
Python `or` short-circuits, so `is_complete` (which raises on a corrupted
profile, modelled by `Except.error`) is only evaluated when the marker is
absent. -/
def completionCheck (response : String) (p : UserProfile) : Except String Bool :=
  if containsMarker response then .ok true
  else
    match p.is_complete with
    | some b => .ok b
    | Option.none => .error "AttributeError"

/-- The profiling generation call (prompt construction plus `predict`). -/
def profilerCall (env : Env) (p : UserProfile) : Except String String :=
  match profilerPrompt p with
  | some pr => env.gen pr
  | Option.none => .error "TypeError"

/-- The literal confirmation suffix appended by `response_agent`. -/
def confirmText : String :=
  "Would you like me to provide detailed application support for any of these scholarships? (Yes/No)"

/-- `ScholarshipBot.response_agent`: one generation call over the serialized
bundle; on success it sets `self.pending_confirmation = "application_support"`
and returns the generated text with the confirmation suffix appended. -/
def response_step (env : Env) (b : List BundleEntry) (st : BotState) :
    Except String String × BotState :=
  match env.gen (responsePrompt b) with
  | .error e => (.error e, st)
  | .ok r =>
    (.ok (r ++ "\n\n" ++ confirmText),
     { st with pending_confirmation := some "application_support" })

/-- `ScholarshipBot._provide_application_support`: a standalone generation
call templated from the profile. -/
def support_step (env : Env) (st : BotState) : TurnResult :=
  match supportPrompt st.user_profile with
  | Option.none => (.error "TypeError", st, [.support])
  | some pr =>
    match env.gen pr with
    | .error e => (.error e, st, [.support])
    | .ok r => (.ok r, st, [.support])

/-- `ScholarshipBot._handle_followup`: a single generation call, no state
change. -/
def followup_step (env : Env) (user_input : String) (st : BotState) : TurnResult :=
  match followupPrompt user_input st with
  | Option.none => (.error "TypeError", st, [.followup])
  | some pr =>
    match env.gen pr with
    | .error e => (.error e, st, [.followup])
    | .ok r => (.ok r, st, [.followup])

/-! ## The Dialogue State Machine -/

/-- `ScholarshipBot.profiler_agent`: profiling generation call, then
extraction, then the completion test; on completion the state advances to
`RESPONDING` and the search orchestrator (and, if search succeeds, the
response synthesizer) run within the same turn. -/
def profiler_agent (env : Env) (user_input : String) (st : BotState) : TurnResult :=
  match profilerCall env st.user_profile with
  | .error e => (.error e, st, [])
  | .ok response =>
    match completionCheck response (extract_profile_info env user_input st.user_profile) with
    | .error e =>
      (.error e, { st with user_profile := extract_profile_info env user_input st.user_profile }, [])
    | .ok false =>
      (.ok response, { st with user_profile := extract_profile_info env user_input st.user_profile }, [])
    | .ok true =>
      match research_step env
          { st with user_profile := extract_profile_info env user_input st.user_profile,
                    state := ConversationState.RESPONDING } with
      | (.error e, st4) =>
        (.ok (response ++ "\n\nI encountered an error while searching: " ++ e
              ++ ". Let me try to help based on general knowledge instead."),
         st4, [.research])
      | (.ok b, st4) =>
        match response_step env b st4 with
        | (.error e, st5) => (.error e, st5, [.research, .synthesizer])
        | (.ok s, st5) =>
          (.ok (response
                ++ "\n\nGreat! I have enough information. Let me search for relevant scholarships for you...\n\n"
                ++ s),
           st5, [.research, .synthesizer])

/-- The state routing of `process_message` (everything below the
confirmation handling). -/
def routeState (env : Env) (user_input : String) (st : BotState) : TurnResult :=
  match st.state with
  | .PROFILING =>
    match profiler_agent env user_input st with
    | (r, st', cs) => (r, st', AgentCall.profiler :: cs)
  | .SEARCHING =>
    match research_step env { st with state := ConversationState.RESPONDING } with
    | (.error e, st2) =>
      (.ok ("I encountered an error while searching: " ++ e
            ++ ". Let me try to help based on general knowledge instead."),
       st2, [.research])
    | (.ok b, st2) =>
      match response_step env b st2 with
      | (.error e, st3) => (.error e, st3, [.research, .synthesizer])
      | (.ok s, st3) => (.ok s, st3, [.research, .synthesizer])
  | .RESPONDING => followup_step env user_input st
  | .COMPLETE =>
    (.ok "I\x27m not sure how to help with that. Could you please rephrase your question?",
     st, [])

/-- `if self.pending_confirmation:` — Python truthiness of the optional
string flag. -/
def optTruthy : Option String → Bool
  | some s => s ≠ ""
  | Option.none => false

def yesTokens : List String := ["yes", "y", "ok", "sure"]
def noTokens : List String := ["no", "n", "not now"]

/-- The canned decline acknowledgment. -/
def declineText : String :=
  "No problem! Feel free to ask if you need anything else or want to search for different scholarships."

/-- `ScholarshipBot.process_message`: confirmation handling on the trimmed,
lowercased input first (an affirmative answer with a pending value other
than `"application_support"`, and any non-affirmative non-negative answer,
falls through to the state routing without clearing the flag; the flag is
cleared before the support call is made), then routing by conversation
state.  Note that `process_message` itself has no `try`/`except`: an
exception raised by a generation call inside propagates to the caller. -/
def process_message (env : Env) (user_input : String) (st : BotState) : TurnResult :=
  if optTruthy st.pending_confirmation then
    if pyLower (pyStripStr user_input) ∈ yesTokens then
      if st.pending_confirmation = some "application_support" then
        support_step env { st with pending_confirmation := Option.none }
      else routeState env user_input st
    else if pyLower (pyStripStr user_input) ∈ noTokens then
      (.ok declineText, { st with pending_confirmation := Option.none }, [])
    else routeState env user_input st
  else routeState env user_input st

/-- The per-message handler of `main()` in src/main.py: it wraps the
`process_message` call in `try`/`except Exception` and prints
`"I encountered an error: ..."` followed by
`"Please try rephrasing your question."` when an exception escapes
`process_message`.  The in-place mutations the bot made before the raise
persist. -/
def mainTurn (env : Env) (user_input : String) (st : BotState) :
    String × BotState × List AgentCall :=
  match process_message env user_input st with
  | (.ok r, st', cs) => (r, st', cs)
  | (.error e, st', cs) =>
    ("I encountered an error: " ++ e ++ "\nPlease try rephrasing your question.", st', cs)

/-! ## Session registry (src/server.py)

Time is measured in minutes (`SESSION_TIMEOUT = timedelta(hours=2)` is 120
minutes, the sweep interval `timedelta(minutes=30)` is 30).  The session
dict is modelled as a partial map from session id to last-activity time. -/

def SESSION_TIMEOUT : Int := 120

def CLEANUP_INTERVAL : Int := 30

structure Registry where
  lastActivity : String → Option Int
  lastCleanup : Int

/-- `cleanup_expired_sessions` from src/server.py: a no-op (the early
`return`) when less than 30 minutes have passed since the last sweep;
otherwise every session whose inactivity strictly exceeds `SESSION_TIMEOUT`
is deleted and `LAST_CLEANUP` is set to the current time. -/
def cleanup_expired_sessions (now : Int) (reg : Registry) : Registry :=
  if now - reg.lastCleanup < CLEANUP_INTERVAL then reg
  else
    { lastActivity := fun sid =>
        match reg.lastActivity sid with
        | some la => if now - la > SESSION_TIMEOUT then Option.none else some la
        | Option.none => Option.none,
      lastCleanup := now }

/-! ## Helper lemmas -/

theorem readAttr_writeAttr (p : UserProfile) (a t : Attr) (v : PyVal) :
    (p.writeAttr a v).readAttr t = if a = t then v else p.readAttr t := by
  cases a <;> cases t <;> rfl

theorem attrOf_eq_research_interests (k : String)
    (h : attrOf k = some Attr.research_interests) : k = "research_interests" := by
  unfold attrOf at h
  split_ifs at h with h1 h2 h3 h4 h5 h6 h7 h8 h9 <;> simp_all

theorem attrOf_eq_extracurriculars (k : String)
    (h : attrOf k = some Attr.extracurriculars) : k = "extracurriculars" := by
  unfold attrOf at h
  split_ifs at h with h1 h2 h3 h4 h5 h6 h7 h8 h9 <;> simp_all

/-! ## C7: `is_complete` is the four-required-fields predicate -/

/-- C7. For every profile whose four required attributes hold strings (as
the schema intends), `is_complete()` returns `True` iff `field_of_study`,
`education_level`, `location` and `citizenship` are all non-empty after
stripping whitespace. -/
theorem is_complete_spec (p : UserProfile) (f e l c : String)
    (hf : p.field_of_study = .str f) (he : p.education_level = .str e)
    (hl : p.location = .str l) (hc : p.citizenship = .str c) :
    p.is_complete = some true ↔
      (pyStripStr f ≠ "" ∧ pyStripStr e ≠ "" ∧ pyStripStr l ≠ "" ∧ pyStripStr c ≠ "") := by
  simp only [UserProfile.is_complete, hf, he, hl, hc, PyVal.pyStrip]
  by_cases h1 : pyStripStr f = "" <;> by_cases h2 : pyStripStr e = "" <;>
    by_cases h3 : pyStripStr l = "" <;> by_cases h4 : pyStripStr c = "" <;>
    simp [h1, h2, h3, h4]

theorem is_complete_spec_witness :
    ({ field_of_study := .str "computer science", education_level := .str " masters ",
       location := .str "Toronto", citizenship := .str "Canada" } : UserProfile).is_complete
      = some true ∧
    ({ field_of_study := .str "computer science", education_level := .str "   ",
       location := .str "Toronto", citizenship := .str "Canada" } : UserProfile).is_complete
      ≠ some true :=
  ⟨(is_complete_spec _ "computer science" " masters " "Toronto" "Canada"
      rfl rfl rfl rfl).mpr (by decide),
   fun h =>
    (by decide :
      ¬ (pyStripStr "computer science" ≠ "" ∧ pyStripStr "   " ≠ "" ∧
         pyStripStr "Toronto" ≠ "" ∧ pyStripStr "Canada" ≠ ""))
      ((is_complete_spec _ "computer science" "   " "Toronto" "Canada"
        rfl rfl rfl rfl).mp h)⟩

/-! ## C8: extraction parse failure is a silent no-op -/

/-- C8. If the text returned by the extraction generation call fails to
parse as JSON, the extraction step leaves the profile unchanged and returns
normally (its result type is total: neither the parse failure nor a
generation failure propagates out of `_extract_profile_info`). -/
theorem extraction_parse_failure_spec (env : Env) (user_input raw : String) (p : UserProfile)
    (hg : env.gen (extractionPrompt user_input) = .ok raw)
    (hp : env.parse (pyStripStr raw) = Option.none) :
    extract_profile_info env user_input p = p := by
  simp only [extract_profile_info, hg, hp]

theorem extraction_parse_failure_spec_witness :
    extract_profile_info
      { gen := fun _ => .ok "this is not JSON", search := fun _ => .ok {},
        parse := fun _ => Option.none }
      "I study physics" { citizenship := .str "Canada" }
      = { citizenship := .str "Canada" } :=
  extraction_parse_failure_spec _ "I study physics" "this is not JSON" _ rfl rfl

/-! ## C9: lazy session sweep with 2-hour TTL -/

/-- C9. When a sweep actually runs (at least 30 minutes since the last
one), a session inactive for strictly more than `SESSION_TIMEOUT` (120
minutes) is removed and any other session survives; within 30 minutes of
the last sweep the function is a no-op, and a sweep records its own time,
so sweeps run at most once per 30 minutes. -/
theorem session_cleanup_spec (now : Int) (reg : Registry) (sid : String) (la : Int) :
    (now - reg.lastCleanup < CLEANUP_INTERVAL → cleanup_expired_sessions now reg = reg) ∧
    (¬ now - reg.lastCleanup < CLEANUP_INTERVAL →
      (cleanup_expired_sessions now reg).lastCleanup = now ∧
      (reg.lastActivity sid = some la → now - la > SESSION_TIMEOUT →
        (cleanup_expired_sessions now reg).lastActivity sid = Option.none) ∧
      (reg.lastActivity sid = some la → ¬ now - la > SESSION_TIMEOUT →
        (cleanup_expired_sessions now reg).lastActivity sid = some la)) := by
  constructor
  · intro h
    unfold cleanup_expired_sessions
    rw [if_pos h]
  · intro h
    unfold cleanup_expired_sessions
    rw [if_neg h]
    refine ⟨rfl, ?_, ?_⟩ <;> intro h1 h2 <;> simp [h1, h2]

theorem session_cleanup_spec_witness :
    (cleanup_expired_sessions 180
      { lastActivity := fun s => if s = "old" then some 0 else
          if s = "fresh" then some 120 else Option.none,
        lastCleanup := 0 }).lastActivity "old" = Option.none ∧
    (cleanup_expired_sessions 180
      { lastActivity := fun s => if s = "old" then some 0 else
          if s = "fresh" then some 120 else Option.none,
        lastCleanup := 0 }).lastActivity "fresh" = some 120 ∧
    cleanup_expired_sessions 100
      { lastActivity := fun _ => some 0, lastCleanup := 90 }
      = { lastActivity := fun _ => some 0, lastCleanup := 90 } :=
  ⟨((session_cleanup_spec 180 _ "old" 0).2 (by decide)).2.1 (by decide) (by decide),
   ((session_cleanup_spec 180 _ "fresh" 120).2 (by decide)).2.2 (by decide) (by decide),
   (session_cleanup_spec 100 _ "x" 0).1 (by decide)⟩

/-! ## C10: a failed search leaves the session untouched -/

/-- C10. If any of the three search-service calls raises during the search
step, `research_agent` returns only the error dict and the session state —
including the stored `search_results` bundle and the conversation state —
is exactly what it was before the call. -/
theorem research_failure_preserves_state (env : Env) (st : BotState) (e : String)
    (h : research_agent env st.user_profile = ResearchOutcome.error e) :
    research_step env st = (ResearchOutcome.error e, st) := by
  unfold research_step
  rw [h]

theorem research_failure_preserves_state_witness :
    research_step
      { gen := fun _ => .ok "reply", search := fun _ => .error "HTTPError",
        parse := fun _ => Option.none }
      { state := .RESPONDING, search_results := [.profileCtx "earlier successful search"] }
      = (ResearchOutcome.error "HTTPError",
         { state := .RESPONDING, search_results := [.profileCtx "earlier successful search"] }) :=
  research_failure_preserves_state _ _ "HTTPError" rfl

/-! ## C5: semantics of one merged extraction delta

The merge loop dispatches on the *runtime type of the delta value*
(`isinstance(value, list)`), not on the schema type of the named field, so
a truthy non-list value sent for `research_interests` overwrites the stored
list instead of being unioned into it. -/

/-- C5 counterexample. An extraction delta carrying the truthy string
`"machine learning"` for the list field `research_interests` does not merge
by set union: the stored list (holding `"AI"`) is overwritten by the bare
string, so the result is not a list containing the existing item at all. -/
theorem merge_scalar_overwrites_list_field_cex :
    (mergeDelta { research_interests := PyVal.list ["AI"] }
        [("research_interests", PyVal.str "machine learning")]).research_interests
      = PyVal.str "machine learning" ∧
    ∀ ys, (mergeDelta { research_interests := PyVal.list ["AI"] }
        [("research_interests", PyVal.str "machine learning")]).research_interests
      = PyVal.list ys → False := by
  refine ⟨by decide, ?_⟩
  intro ys h
  have h0 : (mergeDelta { research_interests := PyVal.list ["AI"] }
      [("research_interests", PyVal.str "machine learning")]).research_interests
      = PyVal.str "machine learning" := by decide
  rw [h0] at h
  exact PyVal.noConfusion h

/-- C5 amended. For one delta entry `(k, v)`: a falsy `v` and an unknown
attribute name both leave the profile unchanged; a truthy *non-list* `v`
overwrites the named attribute (whatever its schema type, including the
list fields); a truthy *list* `v` aimed at an attribute currently holding a
list is merged as a set union of the existing and delta values. -/
theorem merge_delta_entry_semantics (p : UserProfile) (k : String) (v : PyVal) :
    (v.truthy = false → mergeDelta p [(k, v)] = p) ∧
    (attrOf k = Option.none → mergeDelta p [(k, v)] = p) ∧
    (v.isList = false → v.truthy = true → ∀ a, attrOf k = some a →
      (mergeDelta p [(k, v)]).readAttr a = v) ∧
    (∀ xs cs, v = PyVal.list xs → v.truthy = true → ∀ a, attrOf k = some a →
      p.readAttr a = PyVal.list cs →
      ∃ ys, (mergeDelta p [(k, v)]).readAttr a = PyVal.list ys ∧
        ∀ x, x ∈ ys ↔ x ∈ cs ∨ x ∈ xs) := by
  refine ⟨?_, ?_, ?_, ?_⟩
  · intro hv
    simp only [mergeDelta, applyEntry, UserProfile.getAttr]
    cases attrOf k <;> simp [hv, mergeDelta]
  · intro hk
    simp only [mergeDelta, applyEntry, UserProfile.getAttr, hk]
    simp [mergeDelta]
  · intro hnl hv a hk
    simp only [mergeDelta, applyEntry, UserProfile.getAttr, hk, Option.map_some, hv]
    cases v with
    | str s =>
      simp only [mergeDelta, UserProfile.setAttr, hk, if_true]
      simp [readAttr_writeAttr]
    | num n =>
      simp only [mergeDelta, UserProfile.setAttr, hk, if_true]
      simp [readAttr_writeAttr]
    | list xs => simp [PyVal.isList] at hnl
  · intro xs cs hvx hv a hk hcur
    subst hvx
    have hga : p.getAttr k = some (PyVal.list cs) := by
      simp [UserProfile.getAttr, hk, hcur]
    have hxs : xs ≠ [] := by simpa [PyVal.truthy] using hv
    have happ : applyEntry p k (PyVal.list xs)
        = some (p.writeAttr a (PyVal.list ((cs ++ xs).dedup))) := by
      by_cases hcs : cs = []
      · subst hcs
        simp [applyEntry, hga, hxs, PyVal.truthy, UserProfile.setAttr, hk]
      · simp [applyEntry, hga, hxs, PyVal.truthy, hcs, UserProfile.setAttr, hk]
    refine ⟨(cs ++ xs).dedup, ?_, ?_⟩
    · simp [mergeDelta, happ, readAttr_writeAttr]
    · intro x
      simp [List.mem_dedup]

theorem merge_delta_entry_semantics_witness :
    (mergeDelta { citizenship := PyVal.str "Canada" } [("citizenship", PyVal.str "")]
      = { citizenship := PyVal.str "Canada" }) ∧
    (mergeDelta { citizenship := PyVal.str "Canada" } [("favorite_color", PyVal.str "blue")]
      = { citizenship := PyVal.str "Canada" }) ∧
    ((mergeDelta { citizenship := PyVal.str "Canada" } [("citizenship", PyVal.str "France")]).readAttr
        Attr.citizenship = PyVal.str "France") ∧
    (∃ ys, (mergeDelta { research_interests := PyVal.list ["AI"] }
        [("research_interests", PyVal.list ["ML", "AI"])]).readAttr Attr.research_interests
        = PyVal.list ys ∧ ∀ x, x ∈ ys ↔ x ∈ ["AI"] ∨ x ∈ ["ML", "AI"]) :=
  ⟨(merge_delta_entry_semantics _ "citizenship" (PyVal.str "")).1 (by decide),
   (merge_delta_entry_semantics _ "favorite_color" (PyVal.str "blue")).2.1 (by decide),
   (merge_delta_entry_semantics _ "citizenship" (PyVal.str "France")).2.2.1
     (by decide) (by decide) Attr.citizenship (by decide),
   (merge_delta_entry_semantics _ "research_interests" (PyVal.list ["ML", "AI"])).2.2.2
     ["ML", "AI"] ["AI"] rfl (by decide) Attr.research_interests (by decide) rfl⟩

/-! ## C6: monotonicity of the list fields across a session -/

/-- C6 counterexample. List fields are not monotone across arbitrary delta
sequences: after a first merge the item `"AI"` is present in
`research_interests`, and a later merge whose delta carries the truthy
string `"ML"` for that field erases it (the field is overwritten by the
bare string, so no list containing `"AI"` remains). -/
theorem list_field_monotonicity_cex :
    (∃ xs, (applyDeltas {} [[("research_interests", PyVal.list ["AI"])]]).research_interests
        = PyVal.list xs ∧ "AI" ∈ xs) ∧
    ¬ ∃ xs, (applyDeltas {}
        [[("research_interests", PyVal.list ["AI"])],
         [("research_interests", PyVal.str "ML")]]).research_interests
        = PyVal.list xs ∧ "AI" ∈ xs := by
  constructor
  · exact ⟨["AI"], by decide, by decide⟩
  · rintro ⟨xs, h, -⟩
    have h0 : (applyDeltas {}
        [[("research_interests", PyVal.list ["AI"])],
         [("research_interests", PyVal.str "ML")]]).research_interests
        = PyVal.str "ML" := by decide
    rw [h0] at h
    exact PyVal.noConfusion h

/-- A delta whose entries aimed at the two list-valued fields carry list
values (the shape the extraction prompt requests for them). -/
def listTypedDelta (d : List (String × PyVal)) : Prop :=
  ∀ kv ∈ d, (kv.1 = "research_interests" ∨ kv.1 = "extracurriculars") → kv.2.isList = true

theorem applyEntry_attr_mono (p : UserProfile) (k : String) (v : PyVal) (t : Attr)
    (q : UserProfile) (hq : applyEntry p k v = some q)
    (htyped : attrOf k = some t → v.isList = true)
    (x : String) (xs : List String)
    (hp : p.readAttr t = PyVal.list xs) (hx : x ∈ xs) :
    ∃ ys, q.readAttr t = PyVal.list ys ∧ x ∈ ys := by
  rcases hk : attrOf k with _ | a
  · have hga : p.getAttr k = Option.none := by simp [UserProfile.getAttr, hk]
    simp only [applyEntry, hga, Option.some.injEq] at hq
    exact ⟨xs, hq ▸ hp, hx⟩
  · have hga : p.getAttr k = some (p.readAttr a) := by simp [UserProfile.getAttr, hk]
    by_cases hv : v.truthy = true
    · cases v with
      | str s =>
        simp only [applyEntry, hga, hv, if_true, Option.some.injEq] at hq
        by_cases hat : a = t
        · subst hat
          have : PyVal.isList (PyVal.str s) = true := htyped hk
          simp [PyVal.isList] at this
        · refine ⟨xs, ?_, hx⟩
          rw [← hq]
          simp only [UserProfile.setAttr, hk, readAttr_writeAttr, if_neg hat]
          exact hp
      | num n =>
        simp only [applyEntry, hga, hv, if_true, Option.some.injEq] at hq
        by_cases hat : a = t
        · subst hat
          have : PyVal.isList (PyVal.num n) = true := htyped hk
          simp [PyVal.isList] at this
        · refine ⟨xs, ?_, hx⟩
          rw [← hq]
          simp only [UserProfile.setAttr, hk, readAttr_writeAttr, if_neg hat]
          exact hp
      | list l =>
        by_cases hat : a = t
        · subst hat
          have hxs : xs ≠ [] := by
            intro hnil
            subst hnil
            exact absurd hx (by simp)
          have hcur : (if (p.readAttr a).truthy = true then p.readAttr a else PyVal.list [])
              = PyVal.list xs := by
            rw [hp]
            simp [PyVal.truthy, hxs]
          simp only [applyEntry, hga, hv, if_true, hcur, Option.some.injEq] at hq
          refine ⟨(xs ++ l).dedup, ?_, ?_⟩
          · rw [← hq]
            simp [UserProfile.setAttr, hk, readAttr_writeAttr]
          · simp only [List.mem_dedup, List.mem_append]
            exact Or.inl hx
        · rcases hshape : (if (p.readAttr a).truthy = true then p.readAttr a else PyVal.list [])
            with s | n | cs
          · simp only [applyEntry, hga, hv, if_true, hshape] at hq
            exact Option.noConfusion hq
          · simp only [applyEntry, hga, hv, if_true, hshape] at hq
            exact Option.noConfusion hq
          · simp only [applyEntry, hga, hv, if_true, hshape, Option.some.injEq] at hq
            refine ⟨xs, ?_, hx⟩
            rw [← hq]
            simp only [UserProfile.setAttr, hk, readAttr_writeAttr, if_neg hat]
            exact hp
    · have hv' : v.truthy = false := by simpa using hv
      simp only [applyEntry, hga, hv', Bool.false_eq_true, if_false, Option.some.injEq] at hq
      exact ⟨xs, hq ▸ hp, hx⟩

theorem mergeDelta_attr_mono (p : UserProfile) (d : List (String × PyVal)) (t : Attr)
    (hd : ∀ kv ∈ d, attrOf kv.1 = some t → (kv.2).isList = true)
    (x : String) (xs : List String)
    (hp : p.readAttr t = PyVal.list xs) (hx : x ∈ xs) :
    ∃ ys, (mergeDelta p d).readAttr t = PyVal.list ys ∧ x ∈ ys := by
  induction d generalizing p xs with
  | nil => exact ⟨xs, hp, hx⟩
  | cons kv rest ih =>
    obtain ⟨k, v⟩ := kv
    rcases happ : applyEntry p k v with _ | q
    · simp only [mergeDelta, happ]
      exact ⟨xs, hp, hx⟩
    · simp only [mergeDelta, happ]
      obtain ⟨ys, hys, hxy⟩ :=
        applyEntry_attr_mono p k v t q happ (hd (k, v) (List.mem_cons_self _ _)) x xs hp hx
      exact ih q (fun kv hkv => hd kv (List.mem_cons_of_mem _ hkv)) ys hys hxy

theorem applyDeltas_attr_mono (p : UserProfile) (ds : List (List (String × PyVal))) (t : Attr)
    (hds : ∀ d ∈ ds, ∀ kv ∈ d, attrOf kv.1 = some t → (kv.2).isList = true)
    (x : String) (xs : List String)
    (hp : p.readAttr t = PyVal.list xs) (hx : x ∈ xs) :
    ∃ ys, (applyDeltas p ds).readAttr t = PyVal.list ys ∧ x ∈ ys := by
  induction ds generalizing p xs with
  | nil => exact ⟨xs, hp, hx⟩
  | cons d rest ih =>
    obtain ⟨ys, hys, hxy⟩ :=
      mergeDelta_attr_mono p d t (hds d (List.mem_cons_self _ _)) x xs hp hx
    exact ih (mergeDelta p d) (fun d' hd' => hds d' (List.mem_cons_of_mem _ hd')) ys hys hxy

/-- C6 amended. For delta sequences whose entries aimed at the two
list-valued fields carry list values, the list fields of the profile,
`research_interests` and `extracurriculars`, viewed as sets, are
monotonically non-decreasing across a session: every item present before
applying the deltas is still present afterwards. -/
theorem list_fields_monotone_typed (p : UserProfile) (ds : List (List (String × PyVal)))
    (hds : ∀ d ∈ ds, listTypedDelta d) :
    (∀ x xs, p.research_interests = PyVal.list xs → x ∈ xs →
      ∃ ys, (applyDeltas p ds).research_interests = PyVal.list ys ∧ x ∈ ys) ∧
    (∀ x xs, p.extracurriculars = PyVal.list xs → x ∈ xs →
      ∃ ys, (applyDeltas p ds).extracurriculars = PyVal.list ys ∧ x ∈ ys) := by
  constructor
  · intro x xs hp hx
    exact applyDeltas_attr_mono p ds Attr.research_interests
      (fun d hd kv hkv hatt =>
        hds d hd kv hkv (Or.inl (attrOf_eq_research_interests kv.1 hatt)))
      x xs hp hx
  · intro x xs hp hx
    exact applyDeltas_attr_mono p ds Attr.extracurriculars
      (fun d hd kv hkv hatt =>
        hds d hd kv hkv (Or.inr (attrOf_eq_extracurriculars kv.1 hatt)))
      x xs hp hx

theorem list_fields_monotone_typed_witness :
    ∃ ys, (applyDeltas { research_interests := PyVal.list ["AI"] }
        [[("research_interests", PyVal.list ["robotics"]), ("citizenship", PyVal.str "Canada")],
         [("extracurriculars", PyVal.list ["chess club"])]]).research_interests
      = PyVal.list ys ∧ "AI" ∈ ys :=
  (list_fields_monotone_typed { research_interests := PyVal.list ["AI"] }
      [[("research_interests", PyVal.list ["robotics"]), ("citizenship", PyVal.str "Canada")],
       [("extracurriculars", PyVal.list ["chess club"])]]
      (by
        intro d hd kv hkv hname
        simp only [List.mem_cons, List.mem_singleton] at hd
        rcases hd with rfl | rfl | h
        · simp only [List.mem_cons, List.mem_singleton] at hkv
          rcases hkv with rfl | rfl | h2
          · rfl
          · rcases hname with h3 | h3 <;> exact absurd h3 (by decide)
          · exact absurd h2 (by simp)
        · simp only [List.mem_cons, List.mem_singleton] at hkv
          rcases hkv with rfl | h2
          · rfl
          · exact absurd h2 (by simp)
        · exact absurd h (by simp))).1
    "AI" ["AI"] rfl (by decide)

/-! ## C4: the Search Orchestrator queries and failure semantics -/

/-- C4. `research_agent` issues exactly three queries — citizenship
eligibility at `"advanced"` (deep) depth with up to 6 results, location at
`"advanced"` depth with up to 4, application tips at `"basic"` (shallow)
depth with up to 3, each with `include_answer` and without raw page content
— and when all three service calls succeed it returns the bundle with
exactly the three categorized result sets in fixed order plus the profile
context snapshot; if any call fails it returns the single error condition
and no partial bundle. -/
theorem research_agent_spec (env : Env) (p : UserProfile) :
    (researchQueries p = [citizenshipRequest p, locationRequest p, tipsRequest p] ∧
     (researchQueries p).length = 3 ∧
     (citizenshipRequest p).search_depth = "advanced" ∧
     (citizenshipRequest p).max_results = 6 ∧
     (citizenshipRequest p).include_answer = true ∧
     (citizenshipRequest p).include_raw_content = false ∧
     (locationRequest p).search_depth = "advanced" ∧
     (locationRequest p).max_results = 4 ∧
     (locationRequest p).include_answer = true ∧
     (locationRequest p).include_raw_content = false ∧
     (tipsRequest p).search_depth = "basic" ∧
     (tipsRequest p).max_results = 3 ∧
     (tipsRequest p).include_answer = true ∧
     (tipsRequest p).include_raw_content = false) ∧
    (∀ r1 r2 r3 ctx,
      env.search (citizenshipRequest p) = .ok r1 →
      env.search (locationRequest p) = .ok r2 →
      env.search (tipsRequest p) = .ok r3 →
      p.to_search_context = some ctx →
      research_agent env p = .ok (mkBundle r1 r2 r3 ctx)) ∧
    (∀ e, env.search (citizenshipRequest p) = .error e →
      research_agent env p = .error e) ∧
    (∀ r1 e, env.search (citizenshipRequest p) = .ok r1 →
      env.search (locationRequest p) = .error e →
      research_agent env p = .error e) ∧
    (∀ r1 r2 e, env.search (citizenshipRequest p) = .ok r1 →
      env.search (locationRequest p) = .ok r2 →
      env.search (tipsRequest p) = .error e →
      research_agent env p = .error e) := by
  refine ⟨⟨rfl, rfl, rfl, rfl, rfl, rfl, rfl, rfl, rfl, rfl, rfl, rfl, rfl, rfl⟩,
    ?_, ?_, ?_, ?_⟩
  · intro r1 r2 r3 ctx h1 h2 h3 hctx
    simp only [research_agent, h1, h2, h3, hctx]
  · intro e h1
    simp only [research_agent, h1]
  · intro r1 e h1 h2
    simp only [research_agent, h1, h2]
  · intro r1 r2 e h1 h2 h3
    simp only [research_agent, h1, h2, h3]

theorem research_agent_spec_witness :
    research_agent
      { gen := fun _ => .ok "", search := fun _ => .ok {}, parse := fun _ => Option.none } {}
      = .ok (mkBundle {} {} {} ((UserProfile.to_search_context {}).getD "")) ∧
    research_agent
      { gen := fun _ => .ok "", search := fun _ => .error "ConnectionError",
        parse := fun _ => Option.none } {}
      = .error "ConnectionError" :=
  ⟨(research_agent_spec
      { gen := fun _ => .ok "", search := fun _ => .ok {}, parse := fun _ => Option.none }
      {}).2.1 {} {} {} _ rfl rfl rfl rfl,
   (research_agent_spec
      { gen := fun _ => .ok "", search := fun _ => .error "ConnectionError",
        parse := fun _ => Option.none }
      {}).2.2.1 "ConnectionError" rfl⟩

/-! ## Preservation of the pending flag through the routing path -/

theorem research_step_pending (env : Env) (st : BotState) :
    ((research_step env st).2).pending_confirmation = st.pending_confirmation := by
  unfold research_step
  cases research_agent env st.user_profile <;> rfl

theorem response_step_pending (env : Env) (b : List BundleEntry) (st : BotState)
    (h : st.pending_confirmation = some "application_support") :
    ((response_step env b st).2).pending_confirmation = some "application_support" := by
  unfold response_step
  cases env.gen (responsePrompt b) <;> simp [h]

theorem followup_step_state (env : Env) (user_input : String) (st : BotState) :
    ((followup_step env user_input st).2.1) = st := by
  unfold followup_step
  split
  · rfl
  · split <;> rfl

theorem profiler_agent_pending (env : Env) (user_input : String) (st : BotState)
    (h : st.pending_confirmation = some "application_support") :
    ((profiler_agent env user_input st).2.1).pending_confirmation
      = some "application_support" := by
  unfold profiler_agent
  split
  · simpa using h
  · split
    · simpa using h
    · simpa using h
    · split
      · rename_i e st4 heq
        have h0 := research_step_pending env
          { st with user_profile := extract_profile_info env user_input st.user_profile,
                    state := ConversationState.RESPONDING }
        rw [heq] at h0
        simpa [h] using h0
      · rename_i b st4 heq
        have h4 : st4.pending_confirmation = some "application_support" := by
          have h0 := research_step_pending env
            { st with user_profile := extract_profile_info env user_input st.user_profile,
                      state := ConversationState.RESPONDING }
          rw [heq] at h0
          simpa [h] using h0
        split
        · rename_i e st5 heq2
          have h0 := response_step_pending env b st4 h4
          rw [heq2] at h0
          simpa using h0
        · rename_i s st5 heq2
          have h0 := response_step_pending env b st4 h4
          rw [heq2] at h0
          simpa using h0

theorem routeState_pending_app (env : Env) (user_input : String) (st : BotState)
    (h : st.pending_confirmation = some "application_support") :
    ((routeState env user_input st).2.1).pending_confirmation
      = some "application_support" := by
  unfold routeState
  cases hs : st.state with
  | PROFILING =>
    rcases hpa : profiler_agent env user_input st with ⟨r, st', cs⟩
    simp only [hpa]
    have h0 := profiler_agent_pending env user_input st h
    rw [hpa] at h0
    exact h0
  | SEARCHING =>
    rcases hrs : research_step env { st with state := ConversationState.RESPONDING }
      with ⟨ro, st2⟩
    have h2 : st2.pending_confirmation = some "application_support" := by
      have h0 := research_step_pending env { st with state := ConversationState.RESPONDING }
      rw [hrs] at h0
      simpa [h] using h0
    cases ro with
    | error e => simp only [hrs]; exact h2
    | ok b =>
      rcases hresp : response_step env b st2 with ⟨r2, st3⟩
      have h3 : st3.pending_confirmation = some "application_support" := by
        have h0 := response_step_pending env b st2 h2
        rw [hresp] at h0
        exact h0
      cases r2 <;> simp only [hrs, hresp] <;> exact h3
  | RESPONDING =>
    rw [followup_step_state env user_input st]
    exact h
  | COMPLETE => exact h

/-! ## C3: the pending-confirmation sub-dialogue -/

/-- C3. With `PendingConfirmation = "application_support"`: an affirmative
trimmed/lowercased input (`yes`/`y`/`ok`/`sure`) clears the flag and
returns the application-support report — the result of a standalone
generation call whose prompt is templated from the profile — without
entering the state routing; a negative input (`no`/`n`/`not now`) clears
the flag and returns the canned decline acknowledgment; any other input
leaves the flag set and falls through to the normal state-routing path. -/
theorem pending_confirmation_spec (env : Env) (user_input : String) (st : BotState)
    (hpc : st.pending_confirmation = some "application_support") :
    (pyLower (pyStripStr user_input) ∈ yesTokens →
      ∀ pr rep, supportPrompt st.user_profile = some pr → env.gen pr = .ok rep →
        process_message env user_input st =
          (.ok rep, { st with pending_confirmation := Option.none }, [AgentCall.support])) ∧
    (pyLower (pyStripStr user_input) ∈ noTokens →
      process_message env user_input st =
        (.ok declineText, { st with pending_confirmation := Option.none }, [])) ∧
    (pyLower (pyStripStr user_input) ∉ yesTokens →
      pyLower (pyStripStr user_input) ∉ noTokens →
      process_message env user_input st = routeState env user_input st ∧
      ((routeState env user_input st).2.1).pending_confirmation
        = some "application_support") := by
  have hop : optTruthy st.pending_confirmation = true := by rw [hpc]; rfl
  refine ⟨?_, ?_, ?_⟩
  · intro hyes pr rep hpr hgen
    unfold process_message
    rw [hop, if_pos rfl, if_pos hyes, if_pos hpc]
    unfold support_step
    simp only [hpr, hgen]
  · intro hno
    have hny : pyLower (pyStripStr user_input) ∉ yesTokens := by
      have hdisj : ∀ s ∈ noTokens, s ∉ yesTokens := by decide
      exact hdisj _ hno
    unfold process_message
    rw [hop, if_pos rfl, if_neg hny, if_pos hno]
  · intro hny hnn
    constructor
    · unfold process_message
      rw [hop, if_pos rfl, if_neg hny, if_neg hnn]
    · exact routeState_pending_app env user_input st hpc

theorem pending_confirmation_spec_witness :
    process_message
      { gen := fun _ => .ok "Here is your application support report.",
        search := fun _ => .ok {}, parse := fun _ => Option.none }
      " Yes " { pending_confirmation := some "application_support" }
      = (.ok "Here is your application support report.",
         { ({ pending_confirmation := some "application_support" } : BotState) with
            pending_confirmation := Option.none },
         [AgentCall.support]) ∧
    process_message
      { gen := fun _ => .ok "Here is your application support report.",
        search := fun _ => .ok {}, parse := fun _ => Option.none }
      "No" { pending_confirmation := some "application_support" }
      = (.ok declineText,
         { ({ pending_confirmation := some "application_support" } : BotState) with
            pending_confirmation := Option.none },
         []) ∧
    process_message
      { gen := fun _ => .ok "Here is your application support report.",
        search := fun _ => .ok {}, parse := fun _ => Option.none }
      "maybe" { pending_confirmation := some "application_support" }
      = routeState
          { gen := fun _ => .ok "Here is your application support report.",
            search := fun _ => .ok {}, parse := fun _ => Option.none }
          "maybe" { pending_confirmation := some "application_support" } :=
  ⟨(pending_confirmation_spec _ " Yes " _ rfl).1 (by decide) _
      "Here is your application support report." rfl rfl,
   (pending_confirmation_spec _ "No" _ rfl).2.1 (by decide),
   ((pending_confirmation_spec _ "maybe" _ rfl).2.2 (by decide) (by decide)).1⟩

/-! ## C1: the profiling turn and its auto-triggered search/synthesis -/

/-- C1. For a turn processed in `PROFILING` state (no pending
confirmation) whose profiling generation call returns `r`: writing `p2` for
the profile after the extraction step — if the completion test (marker in
`r`, or `is_complete()` on `p2`) is negative, the state stays `PROFILING`
and the reply is the profiling reply alone; if it is positive, the state
ends at `RESPONDING` and the Search Orchestrator (and on search success the
Response Synthesizer) run within the same turn, the reply being the
profiling reply concatenated with the synthesized report on search success,
or with a search-failure explanation (synthesis omitted) on search
failure. -/
theorem profiling_turn_spec (env : Env) (user_input : String) (st : BotState) (r : String)
    (hpc : st.pending_confirmation = Option.none)
    (hst : st.state = ConversationState.PROFILING)
    (hg : profilerCall env st.user_profile = Except.ok r) :
    (completionCheck r (extract_profile_info env user_input st.user_profile) = Except.ok false →
      process_message env user_input st =
        (.ok r,
         { st with user_profile := extract_profile_info env user_input st.user_profile },
         [AgentCall.profiler])) ∧
    (∀ e, completionCheck r (extract_profile_info env user_input st.user_profile) = Except.ok true →
      research_agent env (extract_profile_info env user_input st.user_profile)
        = ResearchOutcome.error e →
      process_message env user_input st =
        (.ok (r ++ "\n\nI encountered an error while searching: " ++ e
              ++ ". Let me try to help based on general knowledge instead."),
         { st with user_profile := extract_profile_info env user_input st.user_profile,
                   state := ConversationState.RESPONDING },
         [AgentCall.profiler, AgentCall.research])) ∧
    (∀ b s, completionCheck r (extract_profile_info env user_input st.user_profile) = Except.ok true →
      research_agent env (extract_profile_info env user_input st.user_profile)
        = ResearchOutcome.ok b →
      env.gen (responsePrompt b) = Except.ok s →
      process_message env user_input st =
        (.ok (r ++ "\n\nGreat! I have enough information. Let me search for relevant scholarships for you...\n\n"
              ++ (s ++ "\n\n" ++ confirmText)),
         { st with user_profile := extract_profile_info env user_input st.user_profile,
                   state := ConversationState.RESPONDING,
                   search_results := b,
                   pending_confirmation := some "application_support" },
         [AgentCall.profiler, AgentCall.research, AgentCall.synthesizer])) := by
  have hroute : process_message env user_input st = routeState env user_input st := by
    unfold process_message
    rw [hpc]
    rfl
  have hprof : routeState env user_input st =
      (match profiler_agent env user_input st with
       | (reply, st', cs) => (reply, st', AgentCall.profiler :: cs)) := by
    unfold routeState
    rw [hst]
  refine ⟨?_, ?_, ?_⟩
  · intro hcc
    rw [hroute, hprof]
    simp only [profiler_agent, hg, hcc]
  · intro e hcc hres
    rw [hroute, hprof]
    simp only [profiler_agent, hg, hcc, research_step, hres]
  · intro b s hcc hres hsyn
    rw [hroute, hprof]
    simp only [profiler_agent, hg, hcc, research_step, hres, response_step, hsyn]

/-- Environment in which every generation call returns the literal
completion marker, every search succeeds with an empty result set, and
extractor output never parses. -/
def completionEnv : Env :=
  { gen := fun _ => .ok "PROFILE_COMPLETE", search := fun _ => .ok {},
    parse := fun _ => Option.none }

theorem profiling_turn_spec_witness :
    process_message completionEnv "I am a masters student" ({} : BotState) =
      (.ok ("PROFILE_COMPLETE"
            ++ "\n\nGreat! I have enough information. Let me search for relevant scholarships for you...\n\n"
            ++ ("PROFILE_COMPLETE" ++ "\n\n" ++ confirmText)),
       { ({} : BotState) with
          user_profile :=
            extract_profile_info completionEnv "I am a masters student" ({} : BotState).user_profile,
          state := ConversationState.RESPONDING,
          search_results := mkBundle {} {} {} ((UserProfile.to_search_context {}).getD ""),
          pending_confirmation := some "application_support" },
       [AgentCall.profiler, AgentCall.research, AgentCall.synthesizer]) :=
  (profiling_turn_spec completionEnv "I am a masters student" {} "PROFILE_COMPLETE"
      rfl rfl rfl).2.2
    (mkBundle {} {} {} ((UserProfile.to_search_context {}).getD "")) "PROFILE_COMPLETE"
    rfl rfl rfl

/-! ## C2: where per-turn exceptions are actually caught -/

/-- Environment in which every generation call raises. -/
def failingGenEnv : Env :=
  { gen := fun _ => .error "GenerationTimeout", search := fun _ => .ok {},
    parse := fun _ => Option.none }

/-- C2 counterexample. A generation exception is *not* caught inside
`process_message`: on a `SEARCHING`-state turn whose synthesis generation
call raises, `process_message` propagates the exception to its caller, and
the session state *was* mutated by the failed turn — the conversation state
advanced to `RESPONDING` and the stored search bundle was overwritten (4
entries where the initial state had 0) before the failing call. -/
theorem process_message_exception_escape_cex :
    (process_message failingGenEnv "find scholarships"
        { state := ConversationState.SEARCHING }).1
      = Except.error "GenerationTimeout" ∧
    (process_message failingGenEnv "find scholarships"
        { state := ConversationState.SEARCHING }).2.1.state = ConversationState.RESPONDING ∧
    (process_message failingGenEnv "find scholarships"
        { state := ConversationState.SEARCHING }).2.1.search_results.length = 4 ∧
    ({ state := ConversationState.SEARCHING } : BotState).search_results.length = 0 :=
  ⟨rfl, rfl, rfl, rfl⟩

/-- C2 amended. It is the per-message handler in the *caller* of
`process_message` (the `try`/`except` around `agent.process_message` in
`main()`, and likewise the HTTP endpoint) that catches the escaped
exception and converts it into the user-visible apology; the session keeps
whatever in-place mutations the turn made before the raise (no rollback). -/
theorem per_turn_failure_caught_in_main (env : Env) (user_input : String) (st : BotState)
    (e : String) (h : (process_message env user_input st).1 = Except.error e) :
    (mainTurn env user_input st).1
      = "I encountered an error: " ++ e ++ "\nPlease try rephrasing your question." ∧
    (mainTurn env user_input st).2 = (process_message env user_input st).2 := by
  unfold mainTurn
  rcases hpm : process_message env user_input st with ⟨reply, st', cs⟩
  rw [hpm] at h
  cases reply with
  | ok a => exact absurd h (by simp)
  | error e2 =>
    have he : e2 = e := by simpa using h
    subst he
    exact ⟨rfl, rfl⟩

theorem per_turn_failure_caught_in_main_witness :
    (mainTurn failingGenEnv "hello" ({} : BotState)).1
      = "I encountered an error: " ++ "GenerationTimeout"
        ++ "\nPlease try rephrasing your question." ∧
    (mainTurn failingGenEnv "hello" ({} : BotState)).2
      = (process_message failingGenEnv "hello" ({} : BotState)).2 :=
  per_turn_failure_caught_in_main failingGenEnv "hello" {} "GenerationTimeout" rfl

end Scholarship
